import Mathlib

/-!
Verification of the chat relay (`src/index.js`): envelope normalization,
deduplication, fan-out routing, Telegram-side acceptance filtering and
identity mapping, shallowly embedded in Lean 4.

Conventions of the embedding:
* JavaScript `undefined`/absent string fields are `Option String` with `none`;
  JS falsiness of a string value (`!x`) is `none` or `some ""`.
* `Date.now()` is passed explicitly as a `Nat` argument `now`.
* The id set `recentIds` is a duplicate-free list of JS values
  (`Option String`, since the code can add `undefined` when a frame parses
  to a non-object primitive); the map `recentHashTimestamps` is an
  association list from the composite key `sender ++ "::" ++ message` to the
  timestamp of last admission.
-/

namespace ChatRelay

/-- The canonical normalized message unit (`msgObj` / normalized `obj` in
`src/index.js`).  `ts` is optional because the code only fills it on the
parse-failure path and never defaults it for parsed objects. -/
structure Envelope where
  id : String
  origin : String
  sender : String
  message : String
  ts : Option Nat
deriving DecidableEq, Repr

/-- `DEDUPE_WINDOW_MS` (src/index.js line 47). -/
def DEDUPE_WINDOW_MS : Nat := 3000

/-- The mutable dedup state: `recentIds` and `recentHashTimestamps`
(src/index.js lines 45-46). -/
structure DedupState where
  seenIds : List (Option String)
  seenHashes : List (String × Nat)
deriving DecidableEq, Repr

/-- `pruneRecent` (src/index.js lines 48-54): drop hash entries strictly older
than the window; clear the id set entirely when it exceeds 2000 entries. -/
def pruneRecent (now : Nat) (st : DedupState) : DedupState :=
  { seenHashes := st.seenHashes.filter (fun p => decide (now - p.2 ≤ DEDUPE_WINDOW_MS)),
    seenIds := if st.seenIds.length > 2000 then [] else st.seenIds }

/-- The composite dedup key `` `${obj.sender}::${obj.message}` ``
(src/index.js line 87). -/
def hashKey (e : Envelope) : String := e.sender ++ "::" ++ e.message

/-- The dedup check-and-record step of the ws message handler
(src/index.js lines 86-99), on an arbitrary id key and hash key: prune, then
reject on a seen id, then reject on an in-window `(sender, message)` hash,
otherwise record both and return true.  `idKey = none` models the `undefined` id
that arises when a frame parses to a non-object primitive. -/
def admitKeys (idKey : Option String) (hk : String) (now : Nat) (st : DedupState) :
    Bool × DedupState :=
  let st1 := pruneRecent now st
  if st1.seenIds.contains idKey then (false, st1)
  else
    match st1.seenHashes.lookup hk with
    | some t =>
      if now - t < DEDUPE_WINDOW_MS then (false, st1)
      else (true, { seenIds := st1.seenIds ++ [idKey],
                    seenHashes := (st1.seenHashes.filter (fun p => p.1 != hk)) ++ [(hk, now)] })
    | none => (true, { seenIds := st1.seenIds ++ [idKey],
                       seenHashes := (st1.seenHashes.filter (fun p => p.1 != hk)) ++ [(hk, now)] })

/-- Dedup admission of a normalized envelope. -/
def admitEnv (e : Envelope) (now : Nat) (st : DedupState) : Bool × DedupState :=
  admitKeys (some e.id) (hashKey e) now st

/-! ## Client-origin normalization (ws message handler, src/index.js 71-99) -/

/-- Outcome of `JSON.parse` on a client frame, restricted to the shapes the
relay's field accesses distinguish: `null`, a non-object primitive (number,
boolean or string — property assignment on these silently no-ops in sloppy
mode), or an object whose canonical fields are each absent or a string. -/
inductive JsonValue where
  | jnull : JsonValue
  | jprim (v : String) : JsonValue
  | jobj (id origin sender message : Option String) (ts : Option Nat) : JsonValue
deriving DecidableEq, Repr

/-- A raw client frame: either text `JSON.parse` throws on, or its parse. -/
inductive ClientInput where
  | unparsable (raw : String) : ClientInput
  | parsed (j : JsonValue) : ClientInput
deriving DecidableEq, Repr

/-- Result of the normalization block (src/index.js lines 73-84):
an envelope, a primitive passed through with no canonical fields, or a
`TypeError` (reading a property of `null`) that unwinds to the handler's
catch at lines 120-122. -/
inductive NormResult where
  | env (e : Envelope) : NormResult
  | prim (v : String) : NormResult
  | thrown : NormResult
deriving DecidableEq, Repr

/-- JS defaulting `if (!obj.x) obj.x = d`: a falsy field (absent or the
empty string) is replaced by the default. -/
def jsDefault (v : Option String) (d : String) : String :=
  match v with
  | some s => if s = "" then d else s
  | none => d

/-- Normalization of a client frame (src/index.js lines 73-84).  Parse
failure wraps the raw text verbatim with sender `"unknown"`; a parsed object
gets falsy canonical fields defaulted (`id` := fresh, `origin` := `"client"`,
`sender` := `"unknown"`, `message` := `""`); parsed `null` throws on the
first field access; a non-object primitive keeps no canonical fields. -/
def normalizeClient (input : ClientInput) (freshId : String) (now : Nat) : NormResult :=
  match input with
  | .unparsable raw => .env ⟨freshId, "client", "unknown", raw, some now⟩
  | .parsed .jnull => .thrown
  | .parsed (.jprim v) => .prim v
  | .parsed (.jobj i o s m t) =>
      .env ⟨jsDefault i freshId, jsDefault o "client", jsDefault s "unknown", jsDefault m "", t⟩

/-- The value broadcast to the other client connections (the stringified
`obj`, src/index.js line 104): a proper envelope, or the raw primitive. -/
inductive Payload where
  | envPayload (e : Envelope) : Payload
  | primPayload (v : String) : Payload
deriving DecidableEq, Repr

/-- Overall outcome of the ws message handler for one inbound frame:
dropped by the catch-all, suppressed by dedup, or delivered with an optional
Telegram forward text. -/
inductive WsOutcome where
  | dropped : WsOutcome
  | deduped : WsOutcome
  | delivered (p : Payload) (tgSend : Option String) : WsOutcome
deriving DecidableEq, Repr

/-- The whole ws message handler (src/index.js lines 71-122): normalize,
dedupe, broadcast, and forward to Telegram only when Telegram is enabled and
`obj.origin === 'client'` (line 110).  On the primitive path the canonical
fields behave as `undefined`: the hash key is `"undefined::undefined"`, the
id key is `undefined`, and `undefined === 'client'` is false, so no forward
ever happens there. -/
def handleClientMessage (telegramEnabled : Bool) (input : ClientInput)
    (freshId : String) (now : Nat) (st : DedupState) : WsOutcome × DedupState :=
  match normalizeClient input freshId now with
  | .thrown => (.dropped, st)
  | .prim v =>
    match admitKeys none "undefined::undefined" now st with
    | (true, st1) => (.delivered (.primPayload v) none, st1)
    | (false, st1) => (.deduped, st1)
  | .env e =>
    match admitEnv e now st with
    | (true, st1) =>
      (.delivered (.envPayload e)
        (if telegramEnabled && e.origin == "client"
         then some ("<" ++ e.sender ++ "> " ++ e.message) else none), st1)
    | (false, st1) => (.deduped, st1)

/-! ## Identity mapping (src/index.js 27-42 and 203-214) -/

/-- JS `String.prototype.toLowerCase` (ASCII-adequate), written by structural
recursion over the character list so that it evaluates inside the kernel. -/
def lowerStr (s : String) : String :=
  ⟨s.data.map Char.toLower⟩

/-- JS `String.prototype.trim`: strip leading and trailing whitespace,
written by structural recursion over the character list. -/
def trimStr (s : String) : String :=
  ⟨((s.data.dropWhile Char.isWhitespace).reverse.dropWhile Char.isWhitespace).reverse⟩

/-- Classification of a mapping key (src/index.js line 33): the regex
`^-?\d+$` on the trimmed key — an optional leading minus followed by one or
more decimal digits. -/
def isNumericKey (s : String) : Bool :=
  match s.data with
  | [] => false
  | c :: rest =>
    if c = '-' then rest ≠ [] && rest.all Char.isDigit
    else (c :: rest).all Char.isDigit

/-- Association-list update with JS-object assignment semantics: a repeated
key overwrites the earlier value. -/
def assocSet (l : List (String × String)) (k v : String) : List (String × String) :=
  (l.filter (fun p => p.1 != k)) ++ [(k, v)]

/-- Loading `user_mappings.json` (src/index.js lines 31-35): numeric-looking
keys (trimmed) go to the id table, all others to the username table
lower-cased.  Returns `(usernameMap, idMap)`. -/
def loadMappings (entries : List (String × String)) :
    List (String × String) × List (String × String) :=
  entries.foldl
    (fun maps p =>
      if isNumericKey (trimStr p.1) then (maps.1, assocSet maps.2 (trimStr p.1) p.2)
      else (assocSet maps.1 (lowerStr p.1) p.2, maps.2))
    ([], [])

/-- JS `a || d` on an optional string: the default when falsy. -/
def jsOr (v : Option String) (d : String) : String :=
  match v with
  | some s => if s = "" then d else s
  | none => d

/-- JS truthiness of an optional string. -/
def jsTruthy (v : Option String) : Bool :=
  match v with
  | some s => s ≠ ""
  | none => false

/-- Sender resolution for Telegram-origin input (src/index.js lines 204-213,
duplicated verbatim at 256-265): case-insensitive username-map match, then
id-map match, then the raw username, then concatenated name parts, then the
raw numeric id, then the placeholder `"[TG]"`.  Falsy usernames and a zero
id are treated as absent (lines 205-206); falsy mapping values are skipped
by the `&&` guards (lines 208-209). -/
def resolveSender (usernameMap idMap : List (String × String))
    (username firstName lastName : Option String) (fromId : Option Int) : String :=
  let uname : Option String :=
    match username with
    | some s => if s = "" then none else some s
    | none => none
  let fromIdStr : Option String :=
    match fromId with
    | some n => if n = 0 then none else some (toString n)
    | none => none
  let m1 : Option String :=
    match uname with
    | some u =>
      match usernameMap.lookup (lowerStr u) with
      | some v => if v = "" then none else some v
      | none => none
    | none => none
  let m2 : Option String :=
    match m1 with
    | some v => some v
    | none =>
      match fromIdStr with
      | some i =>
        match idMap.lookup i with
        | some v => if v = "" then none else some v
        | none => none
      | none => none
  match m2 with
  | some v => v
  | none =>
    match uname with
    | some u => u
    | none =>
      if jsTruthy firstName || jsTruthy lastName then
        jsOr firstName "" ++
          (match lastName with
           | some l => if l = "" then "" else " " ++ l
           | none => "")
      else
        match fromIdStr with
        | some i => i
        | none => "[TG]"

/-! ## Telegram-side handlers (src/index.js 184-285) -/

/-- The `bot.on('message')` handler (src/index.js lines 184-234) up to its
broadcast: `text` is the result of `extractTextFromCtx` (text or caption,
`none` when no text-bearing field exists); a textless update is ignored;
then the acceptance filter of line 197 — with a configured chat id, only the
target chat or a private chat passes; the surviving update becomes a
Telegram-origin envelope with a freshly generated id and a resolved sender.
`none` means nothing is broadcast.  The handler consults no dedup state. -/
def handleTgMessage (cfgChatId : String) (usernameMap idMap : List (String × String))
    (chatId chatType : String) (username firstName lastName : Option String)
    (fromId : Option Int) (text : Option String) (freshId : String) (now : Nat) :
    Option Envelope :=
  match text with
  | none => none
  | some t =>
    if cfgChatId ≠ "" ∧ chatId ≠ cfgChatId ∧ chatType ≠ "private" then none
    else some ⟨freshId, "telegram",
               resolveSender usernameMap idMap username firstName lastName fromId,
               t, some now⟩

/-- The `bot.on('channel_post')` handler (src/index.js lines 237-285): same
shape as the message handler but its acceptance filter (line 251) admits
only the configured target chat, with no private-chat exception. -/
def handleTgChannelPost (cfgChatId : String) (usernameMap idMap : List (String × String))
    (chatId : String) (username firstName lastName : Option String)
    (fromId : Option Int) (text : Option String) (freshId : String) (now : Nat) :
    Option Envelope :=
  match text with
  | none => none
  | some t =>
    if cfgChatId ≠ "" ∧ chatId ≠ cfgChatId then none
    else some ⟨freshId, "telegram",
               resolveSender usernameMap idMap username firstName lastName fromId,
               t, some now⟩

/-! ## Fan-out (src/index.js 103-107 and 227-229) -/

/-- A live client connection.  `cid` models object identity of the `ws`
handle; `isOpen` models `readyState === WebSocket.OPEN`.  `room` records the
room the client regards itself as registered in — the relay code never reads
it (src/index.js keeps no room registry), it is carried here only so that
room-isolation properties can be stated. -/
structure Conn where
  cid : Nat
  room : String
  isOpen : Bool
deriving DecidableEq, Repr

/-- Broadcast targets of the ws message handler (src/index.js lines
105-107): every connection except the originating one, when open. -/
def clientBroadcastTargets (clients : List Conn) (senderCid : Nat) : List Conn :=
  clients.filter (fun c => c.cid != senderCid && c.isOpen)

/-- Broadcast targets of the Telegram handlers (src/index.js lines 227-229
and 278-280): every open connection, with no exclusion. -/
def tgBroadcastTargets (clients : List Conn) : List Conn :=
  clients.filter (fun c => c.isOpen)

/-- Deliveries produced by a Telegram handler run: the broadcast of the
produced envelope to every open connection, or nothing. -/
def tgDeliveries (clients : List Conn) (res : Option Envelope) : List (Conn × Envelope) :=
  match res with
  | some e => (tgBroadcastTargets clients).map (fun c => (c, e))
  | none => []

/-! ## Helper lemmas -/

theorem mem_of_lookup_eq_some {l : List (String × Nat)} {k : String} {v : Nat}
    (h : l.lookup k = some v) : (k, v) ∈ l := by
  induction l with
  | nil => simp [List.lookup] at h
  | cons p t ih =>
    rw [List.lookup] at h
    by_cases hk : k = p.1
    · subst hk
      simp at h
      subst h
      exact List.mem_cons_self _ _
    · have hb : (k == p.1) = false := by simpa using hk
      rw [hb] at h
      exact List.mem_cons_of_mem _ (ih h)

theorem seenIds_pruneRecent_of_le (st : DedupState) (now : Nat)
    (h : st.seenIds.length ≤ 2000) : (pruneRecent now st).seenIds = st.seenIds := by
  simp [pruneRecent]
  omega

/-! ## Claim theorems -/

/-- C1: for every envelope whose origin is external (`"telegram"`), the
forward-to-external decision of the ws message handler is `none`: such an
envelope is only broadcast to client connections and never sent back to
Telegram; a Telegram forward is produced only when the envelope's origin is
`"client"` (and Telegram is enabled). -/
theorem no_external_loopback (te : Bool) (input : ClientInput) (fid : String)
    (now : Nat) (st : DedupState) (e : Envelope) (send : Option String) (st1 : DedupState)
    (h : handleClientMessage te input fid now st = (.delivered (.envPayload e) send, st1)) :
    (e.origin = "telegram" → send = none) ∧ (send.isSome → e.origin = "client" ∧ te = true) := by
  unfold handleClientMessage at h
  split at h
  · simp at h
  · split at h <;> simp_all
  · rename_i e0 hn
    split at h
    · rename_i st2 ha
      simp only [Prod.mk.injEq, WsOutcome.delivered.injEq, Payload.envPayload.injEq] at h
      obtain ⟨⟨he, hsend⟩, hst⟩ := h
      subst he
      constructor
      · intro horig
        rw [← hsend]
        simp [horig]
      · intro hs
        rw [← hsend] at hs
        by_cases hc : (e0.origin == "client") = true
        · refine ⟨by simpa using hc, ?_⟩
          by_cases ht : te = true
          · exact ht
          · simp [Bool.eq_false_iff.mpr ht] at hs
        · simp [Bool.eq_false_iff.mpr hc] at hs
    · simp at h

/-- Witness for `no_external_loopback`: a telegram-origin frame delivered by
the handler at a concrete input carries no Telegram forward. -/
theorem no_external_loopback_witness :
    ((Envelope.mk "i1" "telegram" "S" "hi" none).origin = "telegram" → (none : Option String) = none)
    ∧ ((none : Option String).isSome →
        (Envelope.mk "i1" "telegram" "S" "hi" none).origin = "client" ∧ true = true) :=
  no_external_loopback true
    (.parsed (.jobj (some "i1") (some "telegram") (some "S") (some "hi") none)) "f" 7
    ⟨[], []⟩ (Envelope.mk "i1" "telegram" "S" "hi" none) none
    ⟨[some "i1"], [("S::hi", 7)]⟩ rfl

/-- C2 counterexample: a `(sender, body)` pair admitted on the client path at
time 1000 is nevertheless turned into an envelope and broadcast again by the
Telegram message handler at time 1010 — the Telegram handlers consult no
dedup state, so the duplicate is not suppressed. -/
theorem external_duplicate_rebroadcast_cx :
    (admitEnv ⟨"c1", "client", "X", "hi", none⟩ 1000 ⟨[], []⟩).1 = true
    ∧ tgDeliveries [Conn.mk 1 "r" true]
        (handleTgMessage "55" [] [] "55" "group" (some "X") none none none (some "hi") "g1" 1010)
      = [(Conn.mk 1 "r" true, ⟨"g1", "telegram", "X", "hi", some 1010⟩)] := by
  decide

/-- C2 (amended): only client-connection frames pass through the
deduplicator; an external-platform update with text that survives the
acceptance filter is always normalized and broadcast, with no dedup check of
any kind — the handler's result does not depend on any dedup state. -/
theorem external_path_bypasses_dedup (cfg : String) (um im : List (String × String))
    (chatId chatType : String) (u fn ln : Option String) (fid0 : Option Int)
    (t freshId : String) (now : Nat)
    (hcfg : cfg ≠ "") (hacc : chatId = cfg ∨ chatType = "private") :
    handleTgMessage cfg um im chatId chatType u fn ln fid0 (some t) freshId now
      = some ⟨freshId, "telegram", resolveSender um im u fn ln fid0, t, some now⟩ := by
  unfold handleTgMessage
  rcases hacc with h | h <;> simp [h, hcfg]

/-- Witness for `external_path_bypasses_dedup` at a concrete accepted update. -/
theorem external_path_bypasses_dedup_witness :
    handleTgMessage "55" [] [] "55" "group" (some "X") none none none (some "hi") "g1" 1010
      = some ⟨"g1", "telegram", resolveSender [] [] (some "X") none none none, "hi", some 1010⟩ :=
  external_path_bypasses_dedup "55" [] [] "55" "group" (some "X") none none none "hi" "g1" 1010
    (by decide) (Or.inl rfl)

/-- C3: for every client-origin broadcast, the originating connection is not
among the broadcast targets — the sender never receives an echo of its own
message. -/
theorem no_self_echo (clients : List Conn) (sc : Nat) (c : Conn)
    (h : c ∈ clientBroadcastTargets clients sc) : c.cid ≠ sc := by
  simp [clientBroadcastTargets, List.mem_filter, Bool.and_eq_true, bne_iff_ne] at h
  exact h.2.1

/-- Witness for `no_self_echo` at a concrete client list. -/
theorem no_self_echo_witness : (Conn.mk 2 "r" true).cid ≠ 1 :=
  no_self_echo [Conn.mk 1 "r" true, Conn.mk 2 "r" true] 1 (Conn.mk 2 "r" true) (by decide)

/-- C4 counterexample: the four-byte client frame `null` parses successfully
to JSON `null`, the first normalization field access then throws, and the
handler's catch-all drops the input — it neither produces an envelope nor
explicitly signals "no envelope". -/
theorem normalization_drops_json_null :
    normalizeClient (.parsed .jnull) "f" 0 = .thrown
    ∧ (handleClientMessage true (.parsed .jnull) "f" 0 ⟨[], []⟩).1 = .dropped :=
  ⟨rfl, rfl⟩

/-- C4 (amended): client-origin normalization is total on unparsable text and
on parsed JSON objects: unparsable input is wrapped verbatim as the body with
placeholder sender `"unknown"`, and a parsed object gets every falsy
canonical field defaulted; a non-object JSON primitive passes through with no
canonical fields; only JSON `null` escapes as a caught fault. -/
theorem normalization_total_on_text_and_objects (raw freshId : String) (now : Nat)
    (i o s m : Option String) (t : Option Nat) (v : String) :
    normalizeClient (.unparsable raw) freshId now
      = .env ⟨freshId, "client", "unknown", raw, some now⟩
    ∧ (∃ e : Envelope, normalizeClient (.parsed (.jobj i o s m t)) freshId now = .env e
        ∧ e.id = jsDefault i freshId ∧ e.origin = jsDefault o "client"
        ∧ e.sender = jsDefault s "unknown" ∧ e.message = jsDefault m "")
    ∧ normalizeClient (.parsed (.jprim v)) freshId now = .prim v :=
  ⟨rfl, ⟨_, rfl, rfl, rfl, rfl, rfl⟩, rfl⟩

/-- C5: from a fresh dedup state, a `(sender, body)` pair admitted at time T
and resubmitted with a fresh id is rejected at any time strictly before
T + `DEDUPE_WINDOW_MS` and admitted at any time strictly after it. -/
theorem window_expiry (s b id1 id2 : String) (T now : Nat) (hid : id1 ≠ id2) :
    (admitEnv ⟨id1, "client", s, b, none⟩ T ⟨[], []⟩).1 = true
    ∧ (now < T + DEDUPE_WINDOW_MS →
        (admitEnv ⟨id2, "client", s, b, none⟩ now
          (admitEnv ⟨id1, "client", s, b, none⟩ T ⟨[], []⟩).2).1 = false)
    ∧ (T + DEDUPE_WINDOW_MS < now →
        (admitEnv ⟨id2, "client", s, b, none⟩ now
          (admitEnv ⟨id1, "client", s, b, none⟩ T ⟨[], []⟩).2).1 = true) := by
  have hst : (admitEnv ⟨id1, "client", s, b, none⟩ T ⟨[], []⟩)
      = (true, ⟨[some id1], [(s ++ "::" ++ b, T)]⟩) := rfl
  have hnm : (some id2 : Option String) ∉ [some id1] := by
    simp
    exact fun h => hid h.symm
  have hcont : (([some id1] : List (Option String)).contains (some id2)) = false := by
    simpa using hnm
  have hid2 : id2 ≠ id1 := fun h => hid h.symm
  refine ⟨by rw [hst], ?_, ?_⟩
  · intro hlt
    have hwin : now - T < DEDUPE_WINDOW_MS := by simp only [DEDUPE_WINDOW_MS] at *; omega
    have hkeep : now ≤ DEDUPE_WINDOW_MS + T := by simp only [DEDUPE_WINDOW_MS] at *; omega
    rw [hst]
    simp [admitEnv, admitKeys, pruneRecent, hashKey, hkeep, hcont, List.lookup, hwin, hid2]
  · intro hgt
    have hdrop : ¬ now ≤ DEDUPE_WINDOW_MS + T := by simp only [DEDUPE_WINDOW_MS] at *; omega
    rw [hst]
    simp [admitEnv, admitKeys, pruneRecent, hashKey, hdrop, hcont, List.lookup, hid2]

/-- Witness for `window_expiry`: the pair ("A", "hi") admitted at 1000 is
rejected at 1500 and admitted again at 5000. -/
theorem window_expiry_witness :
    (admitEnv ⟨"b2", "client", "A", "hi", none⟩ 1500
      (admitEnv ⟨"b1", "client", "A", "hi", none⟩ 1000 ⟨[], []⟩).2).1 = false
    ∧ (admitEnv ⟨"b2", "client", "A", "hi", none⟩ 5000
        (admitEnv ⟨"b1", "client", "A", "hi", none⟩ 1000 ⟨[], []⟩).2).1 = true :=
  ⟨(window_expiry "A" "hi" "b1" "b2" 1000 1500 (by decide)).2.1 (by decide),
   (window_expiry "A" "hi" "b1" "b2" 1000 5000 (by decide)).2.2 (by decide)⟩

/-- C6 counterexample: with the pair ("A", "hi") inside the hash window at
time 1000, the first submission of id "x1" at 1001 is rejected (and the id is
not recorded), while a later submission of the same id at 5000 is admitted —
so the single admission is not "the first time". -/
theorem id_dedup_not_first_cx :
    (admitEnv ⟨"x1", "client", "A", "hi", none⟩ 1001 ⟨[], [("A::hi", 1000)]⟩).1 = false
    ∧ (admitEnv ⟨"x1", "client", "A", "hi", none⟩ 5000
        (admitEnv ⟨"x1", "client", "A", "hi", none⟩ 1001 ⟨[], [("A::hi", 1000)]⟩).2).1 = true := by
  decide

/-- C6 (amended): once an envelope id is recorded in `seenIds`, every further
submission carrying that id is rejected and leaves the id recorded,
as long as the id set is within its 2000-entry capacity bound (above the
bound, pruning clears the whole set); a submission rejected by the
`(sender, body)` window check, however, does not record its id, so the single
successful admission need not be the first submission. -/
theorem admitted_id_rejected_until_eviction (e : Envelope) (now : Nat) (st : DedupState)
    (hmem : (some e.id) ∈ st.seenIds) (hcap : st.seenIds.length ≤ 2000) :
    (admitEnv e now st).1 = false ∧ (some e.id) ∈ (admitEnv e now st).2.seenIds := by
  have hids := seenIds_pruneRecent_of_le st now hcap
  have hcont : ((pruneRecent now st).seenIds.contains (some e.id)) = true := by
    rw [hids]; simpa using hmem
  unfold admitEnv admitKeys
  simp [hcont, hids, hmem]

/-- Witness for `admitted_id_rejected_until_eviction` at a concrete state. -/
theorem admitted_id_rejected_until_eviction_witness :
    (admitEnv ⟨"x", "client", "A", "hi", none⟩ 50 ⟨[some "x"], []⟩).1 = false
    ∧ (some "x") ∈ (admitEnv ⟨"x", "client", "A", "hi", none⟩ 50 ⟨[some "x"], []⟩).2.seenIds :=
  admitted_id_rejected_until_eviction ⟨"x", "client", "A", "hi", none⟩ 50 ⟨[some "x"], []⟩
    (by decide) (by decide)

/-- C7: identity resolution follows the priority chain — case-insensitive
username mapping, then numeric-id mapping, then the raw username, then the
concatenated name parts, then the raw numeric id, then the placeholder
`"[TG]"` — checked at an input for each stage and each priority override,
including the three canonical examples of the specification. -/
theorem identity_fallback_chain :
    resolveSender [] [] (some "Alice") none none (some 42) = "Alice"
    ∧ resolveSender (loadMappings [("42", "Steve")]).1 (loadMappings [("42", "Steve")]).2
        none none none (some 42) = "Steve"
    ∧ resolveSender [] [] none none none (some 99) = "99"
    ∧ resolveSender (loadMappings [("Bob", "Bobby")]).1 (loadMappings [("Bob", "Bobby")]).2
        (some "BOB") none none none = "Bobby"
    ∧ resolveSender (loadMappings [("carl", "C1"), ("7", "C2")]).1
        (loadMappings [("carl", "C1"), ("7", "C2")]).2 (some "Carl") none none (some 7) = "C1"
    ∧ resolveSender [] [("5", "Steve")] (some "Dan") none none (some 5) = "Steve"
    ∧ resolveSender [] [] none (some "Ann") (some "Lee") none = "Ann Lee"
    ∧ resolveSender [] [] none none none none = "[TG]" := by
  decide

/-- C8 counterexample: a connection registered in room "r2" is among the
broadcast targets of a message sent by the connection in room "r1" — the
relay keeps no room registry and broadcasts to every other open connection. -/
theorem room_isolation_cx :
    Conn.mk 2 "r2" true ∈ clientBroadcastTargets [Conn.mk 1 "r1" true, Conn.mk 2 "r2" true] 1
    ∧ (Conn.mk 2 "r2" true).room ≠ "r1" := by
  decide

/-- C8 (amended): broadcast is room-agnostic — a client-origin message is
delivered exactly to the open connections other than the sender, regardless
of the rooms the connections regard themselves as registered in. -/
theorem broadcast_room_agnostic (clients : List Conn) (sc : Nat) (c : Conn) :
    c ∈ clientBroadcastTargets clients sc ↔ c ∈ clients ∧ c.cid ≠ sc ∧ c.isOpen = true := by
  simp [clientBroadcastTargets, List.mem_filter, Bool.and_eq_true, bne_iff_ne]

/-- C9: with a configured target chat, a Telegram message with text is turned
into a routable envelope iff it comes from the target chat or from a private
chat, and a channel post with text iff it comes from the target chat; all
other updates are discarded with no broadcast. -/
theorem acceptance_filter (cfg : String) (um im : List (String × String))
    (chatId chatType : String) (u fn ln : Option String) (fid0 : Option Int)
    (t freshId : String) (now : Nat) (hcfg : cfg ≠ "") :
    ((handleTgMessage cfg um im chatId chatType u fn ln fid0 (some t) freshId now).isSome
        ↔ (chatId = cfg ∨ chatType = "private"))
    ∧ ((handleTgChannelPost cfg um im chatId u fn ln fid0 (some t) freshId now).isSome
        ↔ chatId = cfg) := by
  constructor
  · unfold handleTgMessage
    by_cases h1 : chatId = cfg
    · simp [h1, hcfg]
    · by_cases h2 : chatType = "private" <;> simp [h1, h2, hcfg]
  · unfold handleTgChannelPost
    by_cases h1 : chatId = cfg <;> simp [h1, hcfg]

/-- Witness for `acceptance_filter` at a concrete configuration. -/
theorem acceptance_filter_witness :
    ((handleTgMessage "55" [] [] "66" "private" none none none none (some "hi") "g" 1).isSome
        ↔ ("66" = "55" ∨ "private" = "private"))
    ∧ ((handleTgChannelPost "55" [] [] "66" none none none none (some "hi") "g" 1).isSome
        ↔ "66" = "55") :=
  acceptance_filter "55" [] [] "66" "private" none none none none "hi" "g" 1 (by decide)

/-- C10: when the deduplicator rejects a submission, the resulting state is
exactly the pruned state: the rejected id is not newly recorded, and every
surviving `(sender, body)` hash entry (in particular the rejected envelope's
own key) already existed with its old timestamp, so the window keeps being
measured from the last admission, not the last attempt. -/
theorem rejection_preserves_dedup_state (e : Envelope) (now : Nat) (st : DedupState)
    (hrej : (admitEnv e now st).1 = false) :
    (admitEnv e now st).2 = pruneRecent now st
    ∧ ((some e.id) ∉ st.seenIds → (some e.id) ∉ (admitEnv e now st).2.seenIds)
    ∧ (∀ v : Nat, (admitEnv e now st).2.seenHashes.lookup (hashKey e) = some v →
        (hashKey e, v) ∈ st.seenHashes) := by
  have hpost : (admitEnv e now st).2 = pruneRecent now st := by
    by_cases hc : (some e.id) ∈ (pruneRecent now st).seenIds
    · simp [admitEnv, admitKeys, hc]
    · rcases hl : (pruneRecent now st).seenHashes.lookup (hashKey e) with _ | t
      · exfalso
        simp [admitEnv, admitKeys, hc, hl] at hrej
      · by_cases hw : now - t < DEDUPE_WINDOW_MS
        · simp [admitEnv, admitKeys, hc, hl, hw]
        · exfalso
          simp [admitEnv, admitKeys, hc, hl, hw] at hrej
  refine ⟨hpost, ?_, ?_⟩
  · intro hnm
    rw [hpost]
    by_cases hlen : st.seenIds.length > 2000 <;> simp [pruneRecent, hlen, hnm]
  · intro v hv
    rw [hpost] at hv
    have hm : (hashKey e, v) ∈
        st.seenHashes.filter (fun p => decide (now - p.2 ≤ DEDUPE_WINDOW_MS)) :=
      mem_of_lookup_eq_some hv
    exact List.mem_of_mem_filter hm

/-- Witness for `rejection_preserves_dedup_state` at a concrete rejected
submission. -/
theorem rejection_preserves_dedup_state_witness :
    (admitEnv ⟨"x1", "client", "A", "hi", none⟩ 1001 ⟨[], [("A::hi", 1000)]⟩).2
      = pruneRecent 1001 ⟨[], [("A::hi", 1000)]⟩ :=
  (rejection_preserves_dedup_state ⟨"x1", "client", "A", "hi", none⟩ 1001
    ⟨[], [("A::hi", 1000)]⟩ (by decide)).1

end ChatRelay
